import Mathlib

/-!
Verification development for the vetting-api repository: a shallow embedding
of the custodial-wallet key derivation (`createCustodialWallet`), the vetting
status resolver (`statusOfVetting`), the mint / approve operations and the
HTTP validation layer, together with theorems settling the specification
claims about them.

Bytes are modelled as `List Nat` with values below 256; machine words are
`Nat` reduced modulo `2^32` at every arithmetic step, exactly as the 32-bit
operations of SHA-256 require.
-/

set_option maxRecDepth 8192

namespace VettingApi

/-! ## Byte-level helpers -/

/-- Reduce to a 32-bit word, mirroring unsigned 32-bit overflow. -/
def w32 (x : Nat) : Nat := x % 4294967296

/-- 32-bit right rotation. -/
def rotr (n x : Nat) : Nat := w32 ((x >>> n) ||| (x <<< (32 - n)))

/-- The four bytes of a 32-bit word, most significant first. -/
def be32 (n : Nat) : List Nat :=
  [(n >>> 24) % 256, (n >>> 16) % 256, (n >>> 8) % 256, n % 256]

/-- The eight bytes of a 64-bit length field, most significant first. -/
def be64 (n : Nat) : List Nat :=
  [(n >>> 56) % 256, (n >>> 48) % 256, (n >>> 40) % 256, (n >>> 32) % 256,
   (n >>> 24) % 256, (n >>> 16) % 256, (n >>> 8) % 256, n % 256]

/-- UTF-8 bytes of a string, the encoding Node's `hmac.update(string)` uses. -/
def strBytes (s : String) : List Nat := s.toUTF8.toList.map (fun b => b.toNat)

def hexChars : List Char := "0123456789abcdef".data

/-- Lowercase hex rendering of one byte, as `Buffer.toString` with base hex. -/
def byteHex (b : Nat) : String :=
  String.mk [hexChars.getD (b / 16 % 16) '0', hexChars.getD (b % 16) '0']

/-- `Buffer.toString` with base hex over a byte list. -/
def toHex (bs : List Nat) : String := String.join (bs.map byteHex)

def b64Chars : List Char :=
  "ABCDEFGHIJKLMNOPQRSTUVWXYZabcdefghijklmnopqrstuvwxyz0123456789+/".data

/-- Split a byte list into groups of three for base64 encoding. -/
def chunks3 (l : List Nat) : List (List Nat) :=
  match l with
  | [] => []
  | a :: rest => (a :: rest).take 3 :: chunks3 (rest.drop 2)
termination_by l.length
decreasing_by simp [List.length_drop]; omega

/-- Encode one final group of 1 to 3 bytes as 4 base64 characters. -/
def enc3 (g : List Nat) : String :=
  match g with
  | [a] =>
      String.mk [b64Chars.getD (a >>> 2) 'A',
                 b64Chars.getD ((a &&& 3) <<< 4) 'A'] ++ "=="
  | [a, b] =>
      String.mk [b64Chars.getD (a >>> 2) 'A',
                 b64Chars.getD (((a &&& 3) <<< 4) ||| (b >>> 4)) 'A',
                 b64Chars.getD ((b &&& 15) <<< 2) 'A'] ++ "="
  | [a, b, c] =>
      String.mk [b64Chars.getD (a >>> 2) 'A',
                 b64Chars.getD (((a &&& 3) <<< 4) ||| (b >>> 4)) 'A',
                 b64Chars.getD ((((b &&& 15) <<< 2) ||| (c >>> 6))) 'A',
                 b64Chars.getD (c &&& 63) 'A']
  | _ => ""

/-- `Buffer.toString` with base base64 over a byte list. -/
def base64Encode (bs : List Nat) : String := String.join ((chunks3 bs).map enc3)

/-! ## SHA-256 (FIPS 180-4), the hash behind Node's `createHmac` here -/

/-- The 64 round constants of SHA-256, in decimal. -/
def sha256K : List Nat :=
  [1116352408, 1899447441, 3049323471, 3921009573, 961987163,
   1508970993, 2453635748, 2870763221, 3624381080, 310598401,
   607225278, 1426881987, 1925078388, 2162078206, 2614888103,
   3248222580, 3835390401, 4022224774, 264347078, 604807628,
   770255983, 1249150122, 1555081692, 1996064986, 2554220882,
   2821834349, 2952996808, 3210313671, 3336571891, 3584528711,
   113926993, 338241895, 666307205, 773529912, 1294757372,
   1396182291, 1695183700, 1986661051, 2177026350, 2456956037,
   2730485921, 2820302411, 3259730800, 3345764771, 3516065817,
   3600352804, 4094571909, 275423344, 430227734, 506948616,
   659060556, 883997877, 958139571, 1322822218, 1537002063,
   1747873779, 1955562222, 2024104815, 2227730452, 2361852424,
   2428436474, 2756734187, 3204031479, 3329325298]

/-- SHA-256 working state: eight 32-bit words. -/
structure Hash8 where
  a : Nat
  b : Nat
  c : Nat
  d : Nat
  e : Nat
  f : Nat
  g : Nat
  h : Nat
deriving DecidableEq, Repr

/-- The initial hash value of SHA-256, in decimal. -/
def sha256H0 : Hash8 :=
  ⟨1779033703, 3144134277, 1013904242, 2773480762,
   1359893119, 2600822924, 528734635, 1541459225⟩

/-- Pad a byte message: append 0x80, zeros to 56 mod 64, and the bit length. -/
def sha256Pad (msg : List Nat) : List Nat :=
  let len := msg.length
  let k := (119 - len % 64) % 64
  msg ++ [128] ++ List.replicate k 0 ++ be64 (8 * len)

/-- Split the padded message into 64-byte blocks. -/
def chunks64 (l : List Nat) : List (List Nat) :=
  match l with
  | [] => []
  | a :: rest => (a :: rest).take 64 :: chunks64 (rest.drop 63)
termination_by l.length
decreasing_by simp [List.length_drop]; omega

/-- The 16 big-endian 32-bit words of one 64-byte block. -/
def blockWords (blk : List Nat) : List Nat :=
  (List.range 16).map (fun i =>
    (blk.getD (4 * i) 0 <<< 24) + (blk.getD (4 * i + 1) 0 <<< 16) +
    (blk.getD (4 * i + 2) 0 <<< 8) + blk.getD (4 * i + 3) 0)

/-- One message-schedule extension step: push word number `a.size`. -/
def extendStep (a : Array Nat) (_i : Nat) : Array Nat :=
  let t := a.size
  let x := a.getD (t - 15) 0
  let y := a.getD (t - 2) 0
  let s0 := (rotr 7 x) ^^^ (rotr 18 x) ^^^ (x >>> 3)
  let s1 := (rotr 17 y) ^^^ (rotr 19 y) ^^^ (y >>> 10)
  a.push (w32 (s1 + a.getD (t - 7) 0 + s0 + a.getD (t - 16) 0))

/-- The full 64-word message schedule of one block. -/
def schedule (blk : List Nat) : Array Nat :=
  (List.range 48).foldl extendStep (blockWords blk).toArray

/-- One SHA-256 compression round. -/
def compressRound (k w : Nat) (s : Hash8) : Hash8 :=
  let bigS1 := (rotr 6 s.e) ^^^ (rotr 11 s.e) ^^^ (rotr 25 s.e)
  let ch := (s.e &&& s.f) ^^^ ((4294967295 ^^^ s.e) &&& s.g)
  let temp1 := w32 (s.h + bigS1 + ch + k + w)
  let bigS0 := (rotr 2 s.a) ^^^ (rotr 13 s.a) ^^^ (rotr 22 s.a)
  let maj := (s.a &&& s.b) ^^^ (s.a &&& s.c) ^^^ (s.b &&& s.c)
  let temp2 := w32 (bigS0 + maj)
  ⟨w32 (temp1 + temp2), s.a, s.b, s.c, w32 (s.d + temp1), s.e, s.f, s.g⟩

/-- Compress one 64-byte block into the running hash state. -/
def compressBlock (s : Hash8) (blk : List Nat) : Hash8 :=
  let ws := schedule blk
  let t := (List.range 64).foldl
    (fun st i => compressRound (sha256K.getD i 0) (ws.getD i 0) st) s
  ⟨w32 (s.a + t.a), w32 (s.b + t.b), w32 (s.c + t.c), w32 (s.d + t.d),
   w32 (s.e + t.e), w32 (s.f + t.f), w32 (s.g + t.g), w32 (s.h + t.h)⟩

/-- SHA-256 of a byte message, as a 32-byte digest. -/
def sha256 (msg : List Nat) : List Nat :=
  let fin := (chunks64 (sha256Pad msg)).foldl compressBlock sha256H0
  be32 fin.a ++ be32 fin.b ++ be32 fin.c ++ be32 fin.d ++
  be32 fin.e ++ be32 fin.f ++ be32 fin.g ++ be32 fin.h

/-- HMAC-SHA256 (RFC 2104) over byte lists, as Node's `createHmac` computes. -/
def hmacSha256 (key msg : List Nat) : List Nat :=
  let k0 := if key.length > 64 then sha256 key else key
  let kp := k0 ++ List.replicate (64 - k0.length) 0
  let ipadKey := kp.map (fun b => b ^^^ 54)
  let opadKey := kp.map (fun b => b ^^^ 92)
  sha256 (opadKey ++ sha256 (ipadKey ++ msg))

/-! ## Custodial wallet derivation (createCustodialWallet.js)

Embeds `createCustodialWallet` and `generateMnemonicFromSeed`.  The external
Ed25519 keypair constructor, Sui address encoding and public-key base64
rendering live in the `@mysten/sui` SDK; they are pure functions of the
32-byte seed and are abstracted as an `Ed25519Api` record of such functions.
-/

/-- The `userDetails` argument: `{ id, created_at, secret_key }`. -/
structure UserDetails where
  id : String
  created_at : String
  secret_key : String
deriving DecidableEq, Repr

/-- The pure seed-to-key interface of the external Ed25519 SDK:
`Ed25519Keypair.fromSecretKey` followed by `getPublicKey().toSuiAddress()`
and `getPublicKey().toBase64()`. -/
structure Ed25519Api where
  toSuiAddress : List Nat → String
  publicKeyBase64 : List Nat → String

/-- The object `createCustodialWallet` returns. -/
structure WalletResult where
  address : String
  publicKey : String
  privateKey : String
  privateKeyBase64 : String
  mnemonic : String
  seedHex : String
deriving DecidableEq, Repr

/-- The hardcoded word list of `generateMnemonicFromSeed` (136 entries). -/
def mnemonicWordList : List String :=
  ["abandon", "ability", "able", "about", "above", "absent", "absorb", "abstract",
   "absurd", "abuse", "access", "accident", "account", "accuse", "achieve", "acid",
   "acoustic", "acquire", "across", "act", "action", "actor", "actress", "actual",
   "adapt", "add", "addict", "address", "adjust", "admit", "adult", "advance",
   "advice", "aerobic", "affair", "afford", "afraid", "again", "against", "agent",
   "agree", "ahead", "aim", "air", "airport", "aisle", "alarm", "album",
   "alcohol", "alert", "alien", "all", "alley", "allow", "almost", "alone",
   "alpha", "already", "also", "alter", "always", "amateur", "amazing", "among",
   "amount", "amused", "analyst", "anchor", "ancient", "anger", "angle", "angry",
   "animal", "ankle", "announce", "annual", "another", "answer", "antenna", "antique",
   "anxiety", "any", "apart", "apology", "appear", "apple", "approve", "april",
   "arcade", "arch", "arctic", "area", "arena", "argue", "arm", "armed",
   "armor", "army", "around", "arrange", "arrest", "arrive", "arrow", "art",
   "article", "artist", "artwork", "ask", "aspect", "assault", "asset", "assist",
   "assume", "asthma", "athlete", "atom", "attack", "attend", "attitude", "attract",
   "auction", "audit", "august", "aunt", "author", "auto", "autumn", "average",
   "avocado", "avoid", "awake", "aware", "away", "awesome", "awful", "awkward"]

/-- The 12 mnemonic word slots: slot `i` holds the word at index
`seed[2*i] % words.length`.  The source always passes a 32-byte seed, so
every accessed index `2*i ≤ 22` is in range; `getD` with default 0 models
the in-range `seed[i * 2]` access. -/
def mnemonicWords (seed : List Nat) : List String :=
  (List.range 12).map (fun i =>
    mnemonicWordList.getD (seed.getD (2 * i) 0 % mnemonicWordList.length) "")

/-- `generateMnemonicFromSeed`: the 12 words joined with single spaces. -/
def generateMnemonicFromSeed (seed : List Nat) : String :=
  String.intercalate " " (mnemonicWords seed)

/-- The delimiter-joined seed input string of `createCustodialWallet`. -/
def seedDataOf (u : UserDetails) : String :=
  u.id ++ ":" ++ u.created_at ++ ":" ++ u.secret_key

/-- The 32-byte private-key seed handed to `Ed25519Keypair.fromSecretKey`:
the HMAC-SHA256 digest of the seed input keyed by the wallet secret,
truncated to its first 32 bytes by `seed.slice(0, 32)`. -/
def derivedSeed (walletSecret : String) (u : UserDetails) : List Nat :=
  (hmacSha256 (strBytes walletSecret) (strBytes (seedDataOf u))).take 32

/-- `createCustodialWallet(userDetails)`, with the process-wide
`WALLET_SECRET` and the external Ed25519 SDK made explicit arguments. -/
def createCustodialWallet (api : Ed25519Api) (walletSecret : String)
    (u : UserDetails) : WalletResult :=
  let seed := hmacSha256 (strBytes walletSecret) (strBytes (seedDataOf u))
  let privateKeyBytes := seed.take 32
  { address := api.toSuiAddress privateKeyBytes
    publicKey := api.publicKeyBase64 privateKeyBytes
    privateKey := toHex privateKeyBytes
    privateKeyBase64 := base64Encode privateKeyBytes
    mnemonic := generateMnemonicFromSeed privateKeyBytes
    seedHex := toHex (seed.take 32) }

/-! ## createCustodialWalletWithStandardMnemonic

The function body binds `keypair` and `secretKeyArray` and then evaluates
`Buffer.from(privateKeyBytes)` — but no `privateKeyBytes` variable is ever
declared in that function, so the statement raises a ReferenceError, which
the surrounding catch block logs and rethrows.  The identifier scope at the
failing statement is modelled explicitly.
-/

/-- The `userMapping` field of the (unreachable) success object. -/
structure UserMapping where
  userId : String
  createdAt : String
  secretHash : String
deriving DecidableEq, Repr

/-- The (unreachable) success object of the standard-mnemonic variant. -/
structure StdWalletResult where
  address : String
  publicKey : String
  privateKey : String
  privateKeyBase64 : String
  mnemonic : String
  userMapping : UserMapping
deriving DecidableEq, Repr

/-- The local identifiers in scope at the statement
`const privateKeyHex = Buffer.from(privateKeyBytes).toString(..)`:
the parameter plus the two `const` bindings executed before it. -/
def stdMnemonicScope : List String := ["userDetails", "keypair", "secretKeyArray"]

/-- The JS ReferenceError check: `none` when the identifier is bound,
otherwise the error message the engine raises. -/
def referenceError (scope : List String) (x : String) : Option String :=
  if x ∈ scope then none else some (x ++ " is not defined")

/-- `createCustodialWalletWithStandardMnemonic(userDetails)`: evaluation of
the unbound identifier `privateKeyBytes` raises before any other observable
step, and the catch block rethrows, so the call always fails. -/
def createCustodialWalletWithStandardMnemonic (_u : UserDetails) :
    Except String StdWalletResult :=
  match referenceError stdMnemonicScope "privateKeyBytes" with
  | some e => .error e
  | none => .error "unreachable: privateKeyBytes is unbound at this statement"

/-! ## Vetting status resolver (lib/statusOfVetting.js)

`statusOfVetting` issues one `devInspectTransactionBlock` query and decodes
its response.  The remote interaction is modelled as a `QueryOutcome`:
either the client call threw, or it resolved with an execution status string
and the optional `results[0].returnValues` array (collapsed to `none` when
`results`, its first entry, or `returnValues` is absent — all three are read
through optional chaining and any absence takes the same branch).  Each
entry of `returnValues` is a pair of a byte array and a type string.
-/

/-- Outcome of the read-only remote query. -/
inductive QueryOutcome where
  | thrown (errMsg : String)
  | ok (statusStr : String) (returnValues : Option (List (List Nat × String)))
deriving DecidableEq, Repr

/-- The result object `statusOfVetting` returns. -/
structure VetResult where
  applicantAddress : String
  hasApplied : Bool
  isApproved : Option Bool
  message : String
  error : Option String
deriving DecidableEq, Repr

/-- The query-and-decode body of `statusOfVetting(applicantAddress)` (the
exported variant the API server imports), covering everything after the
environment validation: the remote query outcome is an explicit argument
and every path returns a result object.  The environment validation that
precedes this body — and that can throw — is modelled on top of it by
`statusOfVettingFull`. -/
def statusOfVetting (applicantAddress : String) (outcome : QueryOutcome) :
    VetResult :=
  match outcome with
  | .thrown errMsg =>
      { applicantAddress, hasApplied := false, isApproved := none,
        message := "This address has not applied", error := some errMsg }
  | .ok statusStr returnValues =>
      if statusStr != "success" then
        { applicantAddress, hasApplied := false, isApproved := none,
          message := "This address has not applied", error := none }
      else
        match returnValues with
        | none =>
            { applicantAddress, hasApplied := false, isApproved := none,
              message := "This address has not applied", error := none }
        | some [] =>
            { applicantAddress, hasApplied := false, isApproved := none,
              message := "This address has not applied", error := none }
        | some ((optionValue, _) :: _) =>
            if optionValue.length == 1 && optionValue.getD 0 0 == 0 then
              { applicantAddress, hasApplied := false, isApproved := none,
                message := "This address has not applied", error := none }
            else if optionValue.length == 2 && optionValue.getD 0 0 == 1 then
              let isApproved := optionValue.getD 1 0 == 1
              { applicantAddress, hasApplied := true,
                isApproved := some isApproved,
                message := "Approval status: " ++
                  (if isApproved then "true" else "false"),
                error := none }
            else
              { applicantAddress, hasApplied := false, isApproved := none,
                message := "Unexpected return value", error := none }

/-- A query outcome on which the resolver cannot observe a recorded
decision: the client threw, the execution status is not success, or the
return values are absent or empty. -/
def queryFailed : QueryOutcome → Bool
  | .thrown _ => true
  | .ok statusStr returnValues =>
      (statusStr != "success") ||
        (match returnValues with
         | none => true
         | some [] => true
         | some (_ :: _) => false)

/-- The environment `statusOfVetting` reads, with the placeholder defaults
of `process.env.PACKAGE_ID || 'YOUR_PACKAGE_ID'` and
`process.env.VETTING_TABLE_ID || 'YOUR_VETTING_TABLE_ID'` already
applied. -/
structure StatusEnv where
  packageId : String
  vettingTableId : String
deriving DecidableEq, Repr

/-- The full `statusOfVetting(applicantAddress)` function: the environment
validation comes first and sits OUTSIDE the try/catch, so when either
variable is unset it throws to the caller instead of degrading to a
NotApplied result; only past that check does the query-and-decode body
run. -/
def statusOfVettingFull (env : StatusEnv) (applicantAddress : String)
    (outcome : QueryOutcome) : Except String VetResult :=
  if env.packageId == "YOUR_PACKAGE_ID" ||
     env.vettingTableId == "YOUR_VETTING_TABLE_ID" then
    .error "PACKAGE_ID or VETTING_TABLE_ID not set in .env file"
  else
    .ok (statusOfVetting applicantAddress outcome)

/-! ## Transaction responses, mint operations, approveVetting -/

/-- One entry of a transaction response's `objectChanges`. -/
structure ObjectChange where
  type : String
  objectType : String
  objectId : String
deriving DecidableEq, Repr

/-- JS `String.prototype.includes`: substring containment. -/
def strIncludes (s pat : String) : Bool :=
  (List.range (s.length + 1)).any (fun i => (s.drop i).startsWith pat)

/-- A resolved `signAndExecuteTransaction` response: the digest, the
optional `effects.status.status` / `effects.status.error` fields and the
optional `objectChanges` list. -/
structure TxResponse where
  digest : String
  effectsStatus : Option String
  statusErr : Option String
  objectChanges : Option (List ObjectChange)
deriving DecidableEq, Repr

/-- Outcome of submitting a signed transaction: the client call either
threw or resolved with a response (a resolved response can still carry a
non-success execution status). -/
inductive TxOutcome where
  | thrown (msg : String)
  | resolved (r : TxResponse)
deriving DecidableEq, Repr

/-- JS falsiness of an optional string field: absent or empty. -/
def falsyS (o : Option String) : Bool := o.getD "" == ""

/-- The success object of `mintNFT` (volatile fields like `fullResult`
and `gasUsed` omitted; they play no role in any claim). -/
structure MintNftSuccess where
  success : Bool
  transactionDigest : String
  nftObjectId : String
  recipientAddress : String
  nftName : String
  badgeCoinId : String
deriving DecidableEq, Repr

/-- `mintNFT(params)` from apiServer.js: env checks, then the remote
transaction, then status check and created-object extraction.  When no
created object matches `::braav_public::NFT` the sentinel string
`Not found` is returned inside a success object (`?? 'Not found'`). -/
def mintNFT (mnemonic suiNetwork : Option String)
    (recipientAddress nftName badgeCoinId : String) (outcome : TxOutcome) :
    Except String MintNftSuccess :=
  if falsyS mnemonic then
    .error "MNEMONIC not set in environment variables"
  else if falsyS suiNetwork then
    .error "SUI_NETWORK not set in environment variables"
  else
    match outcome with
    | .thrown m => .error m
    | .resolved r =>
        if r.effectsStatus != some "success" then
          .error ("Transaction failed: " ++ r.statusErr.getD "Unknown error")
        else
          let createdNFT := (r.objectChanges.getD []).find? (fun c =>
            c.type == "created" &&
              strIncludes c.objectType "::braav_public::NFT")
          .ok { success := true, transactionDigest := r.digest,
                nftObjectId := (createdNFT.map (·.objectId)).getD "Not found",
                recipientAddress, nftName, badgeCoinId }

/-- The success object of `mintRestrictedNFT`. -/
structure RestrictedMintSuccess where
  success : Bool
  transactionDigest : String
  restrictedNftObjectId : String
  recipientAddress : String
  nftName : String
  coinId : String
  braavVersion : String
deriving DecidableEq, Repr

/-- The eleven leading argument checks of `mintRestrictedNFT` all pass:
every argument is truthy and the recipient address is well formed. -/
def restrictedArgsOk (isValidAddr : String → Bool)
    (mnemonic packageId suiNetwork supplyCapId creatorCapId lineageId
     counterId recipientAddress nftName coinId braavVersion :
       Option String) : Bool :=
  !falsyS mnemonic && !falsyS packageId && !falsyS suiNetwork &&
  !falsyS supplyCapId && !falsyS creatorCapId && !falsyS lineageId &&
  !falsyS counterId && !falsyS recipientAddress &&
  isValidAddr (recipientAddress.getD "") &&
  !falsyS nftName && !falsyS coinId && !falsyS braavVersion

/-- `mintRestrictedNFT(...)` from the eleven-argument module the API
server imports: argument
checks, the transaction, the status check (whose fallback serializes the
whole response; `reprStr` stands in for `JSON.stringify`, a branch no claim
touches), then RestrictedNFT extraction — absence of a matching created
object (or an empty `objectId`) is a thrown extraction error. -/
def mintRestrictedNFT (isValidAddr : String → Bool)
    (mnemonic packageId suiNetwork supplyCapId creatorCapId lineageId
     counterId recipientAddress nftName coinId braavVersion : Option String)
    (outcome : TxOutcome) : Except String RestrictedMintSuccess :=
  if falsyS mnemonic then .error "MNEMONIC not set"
  else if falsyS packageId then .error "PACKAGE_ID not set"
  else if falsyS suiNetwork then .error "SUI_NETWORK not set"
  else if falsyS supplyCapId then .error "SUPPLY_CAP_ID not set"
  else if falsyS creatorCapId then .error "CREATOR_CAP_ID not set"
  else if falsyS lineageId then .error "LINEAGE_ID not set"
  else if falsyS counterId then .error "COUNTER_ID not set"
  else if falsyS recipientAddress then .error "RECIPIENT_ADDRESS not set"
  else if !isValidAddr (recipientAddress.getD "") then
    .error ("Invalid recipient address: " ++ recipientAddress.getD "")
  else if falsyS nftName then .error "nftName is required"
  else if falsyS coinId then .error "coinId is required"
  else if falsyS braavVersion then .error "braavVersion is required"
  else
    match outcome with
    | .thrown m => .error m
    | .resolved r =>
        if r.effectsStatus != some "success" then
          .error ("Transaction failed: " ++ r.statusErr.getD (reprStr r))
        else
          let createdRestrictedNFT := (r.objectChanges.getD []).find? (fun c =>
            c.type == "created" &&
              strIncludes c.objectType "::braav_public::RestrictedNFT")
          let restrictedNftObjectId :=
            (createdRestrictedNFT.map (·.objectId)).getD ""
          if restrictedNftObjectId == "" then
            .error "Failed to retrieve RestrictedNFT object ID"
          else
            .ok { success := true, transactionDigest := r.digest,
                  restrictedNftObjectId,
                  recipientAddress := recipientAddress.getD "",
                  nftName := nftName.getD "", coinId := coinId.getD "",
                  braavVersion := braavVersion.getD "" }

/-- The environment `approveVetting` reads (`PACKAGE_ID` etc. with their
placeholder defaults already applied, as in the source). -/
structure ApproveEnv where
  packageId : String
  vettingTableId : String
  adminCapId : String
  mnemonic : Option String
deriving DecidableEq, Repr

/-- The success object of `approveVetting`. -/
structure ApproveResult where
  success : Bool
  transactionDigest : String
  applicantAddress : String
  message : String
deriving DecidableEq, Repr

/-- `approveVetting(applicantAddress)` from lib/approveVetting.js.  Note:
the transaction result is requested with `showEffects` but its execution
status is never inspected — any resolved response yields the success
object. -/
def approveVetting (env : ApproveEnv) (applicantAddress : String)
    (outcome : TxOutcome) : Except String ApproveResult :=
  if env.packageId == "YOUR_PACKAGE_ID" ||
     env.vettingTableId == "YOUR_VETTING_TABLE_ID" ||
     env.adminCapId == "YOUR_ADMIN_CAP_ID" then
    .error "Required environment variables not set: PACKAGE_ID, VETTING_TABLE_ID, or ADMIN_CAP"
  else if falsyS env.mnemonic then
    .error "MNEMONIC is not set in the .env file"
  else
    match outcome with
    | .thrown m => .error m
    | .resolved r =>
        .ok { success := true, transactionDigest := r.digest,
              applicantAddress, message := "Vetting approved successfully" }

/-! ## HTTP routes (apiServer.js)

Each handler is a function from its request-body fields (and the explicit
remote outcome, where one is reachable) to an HTTP response.  `badRequest`
is a 400-class response produced by a `return res.status(400)` before any
SDK client is invoked; `serverError` is a 500-class response whose `error`
field carries the thrown message (the constant `endpoint` tag of the JSON
body is omitted).  A body field holds `none` when absent from the request.
-/

/-- An HTTP response of one endpoint, with success body type `α`. -/
inductive ApiResp (α : Type) where
  | ok (body : α)
  | badRequest (error : String)
  | serverError (error : String)
deriving DecidableEq, Repr

/-- Whether a response is a 400-class rejection. -/
def ApiResp.isBadRequest {α : Type} : ApiResp α → Bool
  | .badRequest _ => true
  | _ => false

/-- POST /api/approve-vetting: require `applicantAddress`, then call
`approveVetting`; a thrown error becomes a 500 with the message. -/
def approveVettingRoute (applicantAddress : Option String)
    (env : ApproveEnv) (outcome : TxOutcome) : ApiResp ApproveResult :=
  if falsyS applicantAddress then
    .badRequest "applicantAddress is required in request body"
  else
    match approveVetting env (applicantAddress.getD "") outcome with
    | .ok r => .ok r
    | .error e => .serverError e

/-- POST /api/status-of-vetting with the environment configured: require
`applicantAddress`, then return whatever the query-and-decode body
resolves to (past the environment validation it never throws). -/
def statusOfVettingRoute (applicantAddress : Option String)
    (outcome : QueryOutcome) : ApiResp VetResult :=
  if falsyS applicantAddress then
    .badRequest "applicantAddress is required in request body"
  else
    .ok (statusOfVetting (applicantAddress.getD "") outcome)

/-- POST /api/status-of-vetting over the full resolver including its
environment validation: a thrown env-validation error is caught by the
handler and surfaced as a 500-class response. -/
def statusOfVettingRouteFull (applicantAddress : Option String)
    (env : StatusEnv) (outcome : QueryOutcome) : ApiResp VetResult :=
  if falsyS applicantAddress then
    .badRequest "applicantAddress is required in request body"
  else
    match statusOfVettingFull env (applicantAddress.getD "") outcome with
    | .ok r => .ok r
    | .error e => .serverError e

/-- A JS request-body value as the create-supply handler discriminates it:
a number, or some non-number value. -/
inductive JsVal where
  | num (n : Int)
  | other
deriving DecidableEq, Repr

/-- POST /api/create-supply: `supplyLimit` must be present, a number and
positive; `tokenTypeName` must be truthy; only then is `createSupply`
invoked (its outcome is the explicit `Except` argument). -/
def createSupplyRoute (supplyLimit : Option JsVal)
    (tokenTypeName : Option String) (outcome : Except String String) :
    ApiResp String :=
  match supplyLimit with
  | none => .badRequest "supplyLimit (number) and tokenTypeName (string) are required in request body"
  | some v =>
      if falsyS tokenTypeName then
        .badRequest "supplyLimit (number) and tokenTypeName (string) are required in request body"
      else
        match v with
        | .other => .badRequest "supplyLimit must be a positive number"
        | .num n =>
            if n ≤ 0 then .badRequest "supplyLimit must be a positive number"
            else
              match outcome with
              | .ok r => .ok r
              | .error e => .serverError e

/-- The request body of POST /api/mint-nft. -/
structure MintBody where
  packageId : Option String
  supplyCapId : Option String
  lineageId : Option String
  counterId : Option String
  recipientAddress : Option String
  nftName : Option String
  badgeCoinId : Option String
deriving DecidableEq, Repr

/-- The `requiredFields` array of `validateMintRequest`. -/
def mintRequiredFields : List String :=
  ["packageId", "supplyCapId", "lineageId", "counterId",
   "recipientAddress", "nftName", "badgeCoinId"]

/-- `req.body[field]` lookup for a mint body. -/
def mintBodyGet (b : MintBody) : String → Option String
  | "packageId" => b.packageId
  | "supplyCapId" => b.supplyCapId
  | "lineageId" => b.lineageId
  | "counterId" => b.counterId
  | "recipientAddress" => b.recipientAddress
  | "nftName" => b.nftName
  | "badgeCoinId" => b.badgeCoinId
  | _ => none

/-- Validation step: either a 400 rejection (no remote call is reachable
from it) or control passing to the handler proper. -/
inductive RouteStep where
  | badRequest (error : String)
  | proceed
deriving DecidableEq, Repr

/-- The `validateMintRequest` middleware: filter the required fields down
to the missing (falsy) ones, reject when any is missing, then reject an
ill-formed recipient address, else `next()`. -/
def validateMintRequest (isValidAddr : String → Bool) (b : MintBody) :
    RouteStep :=
  let missingFields := mintRequiredFields.filter
    (fun f => falsyS (mintBodyGet b f))
  if missingFields.length > 0 then .badRequest "Missing required fields"
  else if !isValidAddr (b.recipientAddress.getD "") then
    .badRequest "Invalid recipient address format"
  else .proceed

/-- POST /api/mint-nft: the validation middleware runs first; only on
`proceed` is `mintNFT` invoked, with thrown errors becoming a 500. -/
def mintNftRoute (isValidAddr : String → Bool) (b : MintBody)
    (mnemonic suiNetwork : Option String) (outcome : TxOutcome) :
    ApiResp MintNftSuccess :=
  match validateMintRequest isValidAddr b with
  | .badRequest e => .badRequest e
  | .proceed =>
      match mintNFT mnemonic suiNetwork (b.recipientAddress.getD "")
          (b.nftName.getD "") (b.badgeCoinId.getD "") outcome with
      | .ok r => .ok r
      | .error e => .serverError e

/-- The request body of POST /api/mint-restricted-nft. -/
structure RestrictedMintBody where
  packageId : Option String
  supplyCapId : Option String
  creatorCapId : Option String
  lineageId : Option String
  counterId : Option String
  recipientAddress : Option String
  nftName : Option String
  coinId : Option String
  braavVersion : Option String
deriving DecidableEq, Repr

/-- The `requiredFields` array of `validateRestrictedMintRequest`. -/
def restrictedRequiredFields : List String :=
  ["packageId", "supplyCapId", "creatorCapId", "lineageId", "counterId",
   "recipientAddress", "nftName", "coinId", "braavVersion"]

/-- `req.body[field]` lookup for a restricted-mint body. -/
def restrictedBodyGet (b : RestrictedMintBody) : String → Option String
  | "packageId" => b.packageId
  | "supplyCapId" => b.supplyCapId
  | "creatorCapId" => b.creatorCapId
  | "lineageId" => b.lineageId
  | "counterId" => b.counterId
  | "recipientAddress" => b.recipientAddress
  | "nftName" => b.nftName
  | "coinId" => b.coinId
  | "braavVersion" => b.braavVersion
  | _ => none

/-- The `validateRestrictedMintRequest` middleware. -/
def validateRestrictedMintRequest (isValidAddr : String → Bool)
    (b : RestrictedMintBody) : RouteStep :=
  let missingFields := restrictedRequiredFields.filter
    (fun f => falsyS (restrictedBodyGet b f))
  if missingFields.length > 0 then .badRequest "Missing required fields"
  else if !isValidAddr (b.recipientAddress.getD "") then
    .badRequest "Invalid recipient address format"
  else .proceed

/-- POST /api/mint-restricted-nft: the validation middleware, then
`mintRestrictedNFT` with thrown errors becoming a 500. -/
def mintRestrictedNftRoute (isValidAddr : String → Bool)
    (b : RestrictedMintBody) (mnemonic suiNetwork : Option String)
    (outcome : TxOutcome) : ApiResp RestrictedMintSuccess :=
  match validateRestrictedMintRequest isValidAddr b with
  | .badRequest e => .badRequest e
  | .proceed =>
      match mintRestrictedNFT isValidAddr mnemonic b.packageId suiNetwork
          b.supplyCapId b.creatorCapId b.lineageId b.counterId
          b.recipientAddress b.nftName b.coinId b.braavVersion outcome with
      | .ok r => .ok r
      | .error e => .serverError e

/-- The `userDetails` request-body object of POST /api/create-wallet. -/
structure WalletUserBody where
  id : Option String
  created_at : Option String
  secret_key : Option String
deriving DecidableEq, Repr

/-- The success body of POST /api/create-wallet. -/
structure CreateWalletResp where
  success : Bool
  wallet : WalletResult
  message : String
deriving DecidableEq, Repr

/-- POST /api/create-wallet: require `userDetails` with a truthy `id`;
fill `created_at` / `secret_key` defaults (`nowIso` is the current ISO
timestamp and `randHex` the fresh random hex string the handler would
generate); then dispatch on `useStandardMnemonic`.  The standard-mnemonic
branch models the always-thrown ReferenceError as a 500. -/
def createWalletRoute (userDetails : Option WalletUserBody)
    (useStandardMnemonic : Bool) (api : Ed25519Api) (walletSecret : String)
    (nowIso randHex : String) : ApiResp CreateWalletResp :=
  match userDetails with
  | none => .badRequest "userDetails with id is required in request body"
  | some ud =>
      if falsyS ud.id then
        .badRequest "userDetails with id is required in request body"
      else
        let complete : UserDetails :=
          { id := ud.id.getD "", created_at := ud.created_at.getD nowIso,
            secret_key := ud.secret_key.getD randHex }
        if useStandardMnemonic then
          match createCustodialWalletWithStandardMnemonic complete with
          | .error e => .serverError e
          | .ok _ =>
              .serverError "unreachable: the standard-mnemonic variant always throws"
        else
          .ok { success := true,
                wallet := createCustodialWallet api walletSecret complete,
                message := "Custodial wallet created successfully" }

/-- POST /api/create-display (and its restricted twin, whose validation
block is identical): `displayKeys` and `displayValues` must be present
arrays of equal length and `braavVersion` a truthy string, all checked
before any environment read or SDK call.  `none` models an absent or
non-array (resp. non-string) field, which the source rejects alike. -/
def createDisplayCheck (displayKeys displayValues : Option (List String))
    (braavVersion : Option String) : RouteStep :=
  match displayKeys with
  | none => .badRequest "displayKeys is required and must be an array"
  | some ks =>
      match displayValues with
      | none => .badRequest "displayValues is required and must be an array"
      | some vs =>
          if ks.length != vs.length then
            .badRequest "displayKeys and displayValues must have the same length"
          else if falsyS braavVersion then
            .badRequest "braavVersion is required and must be a string"
          else .proceed

/-! ## Helper lemmas -/

/-- Every SHA-256 digest is exactly 32 bytes. -/
theorem sha256_length (m : List Nat) : (sha256 m).length = 32 := by
  simp [sha256, be32]

/-- Every HMAC-SHA256 digest is exactly 32 bytes. -/
theorem hmacSha256_length (key msg : List Nat) :
    (hmacSha256 key msg).length = 32 := by
  unfold hmacSha256
  exact sha256_length _

/-! ## Claims -/

/-- C1: for every pair of calls to `createCustodialWallet` with identical
inputs `(id, created_at, secret_key)` and the same process-wide wallet
secret (and the same external Ed25519 SDK), the two calls return the
identical wallet object — same address, public key, private-key seed and
mnemonic.  The derivation is a pure, randomness-free function of its
inputs. -/
theorem createCustodialWallet_deterministic (api : Ed25519Api)
    (walletSecret : String) (u v : UserDetails) (hid : u.id = v.id)
    (hca : u.created_at = v.created_at) (hsk : u.secret_key = v.secret_key) :
    createCustodialWallet api walletSecret u =
      createCustodialWallet api walletSecret v := by
  cases u
  cases v
  cases hid
  cases hca
  cases hsk
  rfl

/-- Witness for C1 at the spec's example scenario inputs. -/
theorem createCustodialWallet_deterministic_witness :
    createCustodialWallet ⟨fun _ => "", fun _ => ""⟩ "test"
        ⟨"user123", "2024-01-15T10:30:00Z", "abc"⟩ =
      createCustodialWallet ⟨fun _ => "", fun _ => ""⟩ "test"
        ⟨"user123", "2024-01-15T10:30:00Z", "abc"⟩ :=
  createCustodialWallet_deterministic ⟨fun _ => "", fun _ => ""⟩ "test"
    ⟨"user123", "2024-01-15T10:30:00Z", "abc"⟩
    ⟨"user123", "2024-01-15T10:30:00Z", "abc"⟩ rfl rfl rfl

/-- C7: for every input of any lengths, the HMAC-SHA256 digest is exactly
32 bytes, and the private-key seed handed to the Ed25519 key constructor —
the digest truncated by `slice(0, 32)` — is exactly 32 bytes; indeed the
truncation is the identity on a 32-byte digest. -/
theorem derivedSeed_always_32_bytes (key msg : List Nat)
    (walletSecret : String) (u : UserDetails) :
    (hmacSha256 key msg).length = 32 ∧
    (derivedSeed walletSecret u).length = 32 ∧
    derivedSeed walletSecret u =
      hmacSha256 (strBytes walletSecret) (strBytes (seedDataOf u)) := by
  refine ⟨hmacSha256_length key msg, ?_, ?_⟩
  · simp [derivedSeed, hmacSha256_length]
  · exact List.take_of_length_le (le_of_eq (hmacSha256_length _ _))

/-- C8: the mnemonic of a derived wallet is the space-join of exactly 12
words, where slot `i` holds the fixed word list's entry at index
`digest[2*i] % wordListSize`; the word list has 136 entries; and the
mapping from seed bytes to mnemonic is lossy (two distinct seeds share a
mnemonic), so the mnemonic is a display artifact, not a reversible
encoding of the key. -/
theorem mnemonic_from_digest (api : Ed25519Api) (ws : String)
    (u : UserDetails) :
    (createCustodialWallet api ws u).mnemonic =
      String.intercalate " " (mnemonicWords (derivedSeed ws u)) ∧
    (mnemonicWords (derivedSeed ws u)).length = 12 ∧
    (∀ i : Nat, (mnemonicWords (derivedSeed ws u)).getD i "" =
      if i < 12 then
        mnemonicWordList.getD
          ((derivedSeed ws u).getD (2 * i) 0 % mnemonicWordList.length) ""
      else "") ∧
    mnemonicWordList.length = 136 ∧
    mnemonicWords (List.replicate 32 0) =
      mnemonicWords (0 :: 5 :: List.replicate 30 0) ∧
    List.replicate 32 (0 : Nat) ≠ 0 :: 5 :: List.replicate 30 0 := by
  refine ⟨rfl, by simp [mnemonicWords], ?_, by decide, by decide, by decide⟩
  intro i
  by_cases h : i < 12
  · have hlen : i < (mnemonicWords (derivedSeed ws u)).length := by
      simpa [mnemonicWords] using h
    rw [List.getD_eq_getElem _ _ hlen, if_pos h]
    simp [mnemonicWords]
  · have hlen : (mnemonicWords (derivedSeed ws u)).length ≤ i := by
      simp [mnemonicWords]
      omega
    rw [List.getD_eq_default _ _ hlen, if_neg h]

/-- C2: for every encoded optional-of-optional return value handed to the
resolver — the head byte array of the first return-value entry — an empty
outer encoding (a one-byte value equal to 0) yields NotApplied; a populated
outer encoding (a two-byte value whose first byte is 1) yields Decided with
approved true exactly when the inner byte equals 1; and every other encoded
shape yields NotApplied with the "Unexpected return value" annotation. -/
theorem statusOfVetting_decode (addr ty : String)
    (rest : List (List Nat × String)) (v : List Nat) :
    (v = [0] →
      statusOfVetting addr (.ok "success" (some ((v, ty) :: rest))) =
        { applicantAddress := addr, hasApplied := false, isApproved := none,
          message := "This address has not applied", error := none }) ∧
    (∀ b : Nat, v = [1, b] →
      statusOfVetting addr (.ok "success" (some ((v, ty) :: rest))) =
        { applicantAddress := addr, hasApplied := true,
          isApproved := some (b == 1),
          message := "Approval status: " ++ (if b == 1 then "true" else "false"),
          error := none }) ∧
    ((v.length == 1 && v.getD 0 0 == 0) = false →
     (v.length == 2 && v.getD 0 0 == 1) = false →
      statusOfVetting addr (.ok "success" (some ((v, ty) :: rest))) =
        { applicantAddress := addr, hasApplied := false, isApproved := none,
          message := "Unexpected return value", error := none }) := by
  refine ⟨?_, ?_, ?_⟩
  · rintro rfl
    rfl
  · rintro b rfl
    simp [statusOfVetting]
  · intro h1 h2
    simp only [statusOfVetting]
    rw [h1, h2]
    rfl

/-- Witness for C2 at the three concrete encoded shapes. -/
theorem statusOfVetting_decode_witness :
    statusOfVetting "0xa" (.ok "success" (some [([0], "t")])) =
      { applicantAddress := "0xa", hasApplied := false, isApproved := none,
        message := "This address has not applied", error := none } ∧
    statusOfVetting "0xa" (.ok "success" (some [([1, 1], "t")])) =
      { applicantAddress := "0xa", hasApplied := true, isApproved := some true,
        message := "Approval status: true", error := none } ∧
    statusOfVetting "0xa" (.ok "success" (some [([7], "t")])) =
      { applicantAddress := "0xa", hasApplied := false, isApproved := none,
        message := "Unexpected return value", error := none } :=
  ⟨(statusOfVetting_decode "0xa" "t" [] [0]).1 rfl,
   by simpa using (statusOfVetting_decode "0xa" "t" [] [1, 1]).2.1 1 rfl,
   (statusOfVetting_decode "0xa" "t" [] [7]).2.2 (by decide) (by decide)⟩

/-- C3 counterexample: the resolver does NOT hold for every input — when
`PACKAGE_ID` or `VETTING_TABLE_ID` is unset, the environment validation
(which sits outside the try/catch) throws
"PACKAGE_ID or VETTING_TABLE_ID not set in .env file" to the caller
instead of returning a NotApplied-shaped result, and the HTTP route
surfaces it as a 500-class response, not as a NotApplied body. -/
theorem statusOfVetting_env_throw_counterexample :
    statusOfVettingFull ⟨"YOUR_PACKAGE_ID", "YOUR_VETTING_TABLE_ID"⟩ "0xabc"
        (.ok "success" (some [([0], "t")])) =
      .error "PACKAGE_ID or VETTING_TABLE_ID not set in .env file" ∧
    statusOfVettingRouteFull (some "0xabc")
        ⟨"YOUR_PACKAGE_ID", "YOUR_VETTING_TABLE_ID"⟩
        (.ok "success" (some [([0], "t")])) =
      .serverError "PACKAGE_ID or VETTING_TABLE_ID not set in .env file" :=
  ⟨rfl, rfl⟩

/-- C3 amended: when `PACKAGE_ID` or `VETTING_TABLE_ID` is unset, the
resolver throws the environment-validation error to its caller; provided
both are configured it never raises — every failing input (thrown client
error, non-success execution status, missing or empty return values)
returns a NotApplied-shaped result with the diagnostic message, and a
thrown remote failure produces exactly the never-applied observable state,
except for the extra recorded error string. -/
theorem statusOfVetting_degrades_when_configured (env : StatusEnv)
    (addr : String) (outcome : QueryOutcome) (e : String)
    (henv : (env.packageId == "YOUR_PACKAGE_ID" ||
             env.vettingTableId == "YOUR_VETTING_TABLE_ID") = false)
    (h : queryFailed outcome = true) :
    statusOfVettingFull ⟨"YOUR_PACKAGE_ID", env.vettingTableId⟩ addr outcome =
      .error "PACKAGE_ID or VETTING_TABLE_ID not set in .env file" ∧
    statusOfVettingFull env addr outcome =
      .ok (statusOfVetting addr outcome) ∧
    (statusOfVetting addr outcome).hasApplied = false ∧
    (statusOfVetting addr outcome).isApproved = none ∧
    (statusOfVetting addr outcome).message = "This address has not applied" ∧
    statusOfVetting addr (.thrown e) =
      { statusOfVetting addr (.ok "success" (some [([0], "")])) with
          error := some e } := by
  refine ⟨rfl, ?_, ?_, ?_, ?_, rfl⟩
  · simp only [statusOfVettingFull, henv, Bool.false_eq_true, if_false]
  all_goals
  (cases outcome with
   | thrown m => rfl
   | ok s rv =>
       rcases rv with _ | (_ | ⟨⟨ov, t⟩, rest⟩)
       · simp only [statusOfVetting]
         split <;> rfl
       · simp only [statusOfVetting]
         split <;> rfl
       · have hs : (s != "success") = true := by
           simpa [queryFailed] using h
         simp only [statusOfVetting]
         rw [hs]
         rfl)

/-- Witness for C3's amended theorem at a configured environment and a
thrown client error. -/
theorem statusOfVetting_degrades_when_configured_witness :
    statusOfVettingFull ⟨"YOUR_PACKAGE_ID", "0xtable"⟩ "0xb"
        (.thrown "fetch failed") =
      .error "PACKAGE_ID or VETTING_TABLE_ID not set in .env file" ∧
    statusOfVettingFull ⟨"0xpkg", "0xtable"⟩ "0xb" (.thrown "fetch failed") =
      .ok (statusOfVetting "0xb" (.thrown "fetch failed")) ∧
    (statusOfVetting "0xb" (.thrown "fetch failed")).hasApplied = false ∧
    (statusOfVetting "0xb" (.thrown "fetch failed")).isApproved = none ∧
    (statusOfVetting "0xb" (.thrown "fetch failed")).message =
      "This address has not applied" ∧
    statusOfVetting "0xb" (.thrown "fetch failed") =
      { statusOfVetting "0xb" (.ok "success" (some [([0], "")])) with
          error := some "fetch failed" } :=
  statusOfVetting_degrades_when_configured ⟨"0xpkg", "0xtable"⟩ "0xb"
    (.thrown "fetch failed") "fetch failed" rfl rfl

/-- C10: every result object the resolver produces satisfies the
invariant that `isApproved` carries a boolean exactly when `hasApplied`
is true (and is null whenever `hasApplied` is false). -/
theorem statusOfVetting_field_invariant (addr : String)
    (outcome : QueryOutcome) :
    (statusOfVetting addr outcome).isApproved.isSome =
      (statusOfVetting addr outcome).hasApplied := by
  cases outcome with
  | thrown m => rfl
  | ok s rv =>
      rcases rv with _ | rvs
      · simp only [statusOfVetting]
        split <;> rfl
      · rcases rvs with _ | ⟨⟨ov, t⟩, rest⟩
        · simp only [statusOfVetting]
          split <;> rfl
        · simp only [statusOfVetting]
          split
          · rfl
          · split
            · rfl
            · split
              · rfl
              · rfl

/-- C4 counterexample: a mint-nft transaction that succeeds remotely but
whose response contains no created object matching the expected NFT type
does NOT surface a "not found" error — `mintNFT` returns a success result
whose `nftObjectId` is the sentinel string `Not found`. -/
theorem mintNFT_missing_object_counterexample :
    mintNFT (some "test mnemonic words") (some "https://fullnode.testnet")
        "0xrecipient" "Gold Coin" "badge-1"
        (.resolved { digest := "Digest1", effectsStatus := some "success",
                     statusErr := none, objectChanges := some [] }) =
      .ok { success := true, transactionDigest := "Digest1",
            nftObjectId := "Not found", recipientAddress := "0xrecipient",
            nftName := "Gold Coin", badgeCoinId := "badge-1" } := by
  rfl

/-- C4 amended: on a successful remote transaction whose response contains
no created object of the expected type, the mint-restricted-nft path throws
the distinct extraction error "Failed to retrieve RestrictedNFT object ID",
while the mint-nft path instead returns a success result carrying the
sentinel string `Not found` as the object id. -/
theorem mint_extraction_behavior (isValidAddr : String → Bool)
    (mn pk net sc cc li co ra nn ci bv : Option String) (r : TxResponse)
    (hargs : restrictedArgsOk isValidAddr mn pk net sc cc li co ra nn ci bv
      = true)
    (hst : r.effectsStatus = some "success")
    (hnoneR : (r.objectChanges.getD []).find? (fun c =>
        c.type == "created" &&
          strIncludes c.objectType "::braav_public::RestrictedNFT") = none)
    (mn2 net2 : Option String) (ra2 nn2 bc2 : String)
    (hmn2 : falsyS mn2 = false) (hnet2 : falsyS net2 = false)
    (hnoneN : (r.objectChanges.getD []).find? (fun c =>
        c.type == "created" &&
          strIncludes c.objectType "::braav_public::NFT") = none) :
    mintRestrictedNFT isValidAddr mn pk net sc cc li co ra nn ci bv
        (.resolved r) = .error "Failed to retrieve RestrictedNFT object ID" ∧
    mintNFT mn2 net2 ra2 nn2 bc2 (.resolved r) =
      .ok { success := true, transactionDigest := r.digest,
            nftObjectId := "Not found", recipientAddress := ra2,
            nftName := nn2, badgeCoinId := bc2 } := by
  simp only [restrictedArgsOk, Bool.and_eq_true, Bool.not_eq_true'] at hargs
  obtain ⟨⟨⟨⟨⟨⟨⟨⟨⟨⟨⟨h1, h2⟩, h3⟩, h4⟩, h5⟩, h6⟩, h7⟩, h8⟩, h9⟩, h10⟩,
    h11⟩, h12⟩ := hargs
  constructor
  · simp only [mintRestrictedNFT, h1, h2, h3, h4, h5, h6, h7, h8, h9, h10,
      h11, h12, hst, hnoneR, Bool.false_eq_true, if_false, Bool.not_true,
      Option.map_none, Option.getD_none]
    rfl
  · simp only [mintNFT, hmn2, hnet2, hst, hnoneN, Bool.false_eq_true,
      if_false, Option.map_none, Option.getD_none]
    rfl

/-- Witness for C4's amended theorem at concrete inputs. -/
theorem mint_extraction_behavior_witness :
    mintRestrictedNFT (fun _ => true) (some "m") (some "0xpkg") (some "net")
        (some "0xsc") (some "0xcc") (some "0xli") (some "0xco") (some "0xra")
        (some "NFT Name") (some "coin-1") (some "BRAAV16")
        (.resolved { digest := "D2", effectsStatus := some "success",
                     statusErr := none, objectChanges := some [] }) =
      .error "Failed to retrieve RestrictedNFT object ID" ∧
    mintNFT (some "m") (some "net") "0xra" "NFT Name" "coin-1"
        (.resolved { digest := "D2", effectsStatus := some "success",
                     statusErr := none, objectChanges := some [] }) =
      .ok { success := true, transactionDigest := "D2",
            nftObjectId := "Not found", recipientAddress := "0xra",
            nftName := "NFT Name", badgeCoinId := "coin-1" } :=
  mint_extraction_behavior (fun _ => true) (some "m") (some "0xpkg")
    (some "net") (some "0xsc") (some "0xcc") (some "0xli") (some "0xco")
    (some "0xra") (some "NFT Name") (some "coin-1") (some "BRAAV16")
    { digest := "D2", effectsStatus := some "success", statusErr := none,
      objectChanges := some [] }
    (by decide) rfl rfl (some "m") (some "net") "0xra" "NFT Name" "coin-1"
    rfl rfl rfl

/-- C5 counterexample: a submitted approve-vetting transaction that
resolves with a non-success execution status still produces the 200-class
success result claiming the vetting was approved — the handler never
inspects the execution status. -/
theorem approveVetting_status_ignored_counterexample :
    approveVettingRoute (some "0xabc")
        { packageId := "0xpkg", vettingTableId := "0xtable",
          adminCapId := "0xadmin", mnemonic := some "test mnemonic" }
        (.resolved { digest := "DigestA", effectsStatus := some "failure",
                     statusErr := some "MoveAbort in vetting approve_vetting",
                     objectChanges := none }) =
      .ok { success := true, transactionDigest := "DigestA",
            applicantAddress := "0xabc",
            message := "Vetting approved successfully" } := by
  rfl

/-- C5 amended: when the remote call throws, the approve-vetting endpoint
returns a 500-class response carrying the remote error message verbatim and
never a success result; but the execution status of a resolved transaction
is never checked, so any resolved response — success or failure alike —
yields the 200-class success result. -/
theorem approveVettingRoute_behavior (addr : String) (env : ApproveEnv)
    (m : String) (r : TxResponse)
    (haddr : falsyS (some addr) = false)
    (henv : (env.packageId == "YOUR_PACKAGE_ID" ||
             env.vettingTableId == "YOUR_VETTING_TABLE_ID" ||
             env.adminCapId == "YOUR_ADMIN_CAP_ID") = false)
    (hmn : falsyS env.mnemonic = false) :
    approveVettingRoute (some addr) env (.thrown m) = .serverError m ∧
    approveVettingRoute (some addr) env (.resolved r) =
      .ok { success := true, transactionDigest := r.digest,
            applicantAddress := addr,
            message := "Vetting approved successfully" } := by
  constructor <;>
    simp only [approveVettingRoute, approveVetting, haddr, henv, hmn,
      Bool.false_eq_true, if_false, Option.getD_some]

/-- Witness for C5's amended theorem at concrete inputs. -/
theorem approveVettingRoute_behavior_witness :
    approveVettingRoute (some "0xabc")
        { packageId := "0xpkg", vettingTableId := "0xtable",
          adminCapId := "0xadmin", mnemonic := some "words" }
        (.thrown "Network error") = .serverError "Network error" ∧
    approveVettingRoute (some "0xabc")
        { packageId := "0xpkg", vettingTableId := "0xtable",
          adminCapId := "0xadmin", mnemonic := some "words" }
        (.resolved { digest := "D3", effectsStatus := some "success",
                     statusErr := none, objectChanges := none }) =
      .ok { success := true, transactionDigest := "D3",
            applicantAddress := "0xabc",
            message := "Vetting approved successfully" } :=
  approveVettingRoute_behavior "0xabc"
    { packageId := "0xpkg", vettingTableId := "0xtable",
      adminCapId := "0xadmin", mnemonic := some "words" }
    "Network error"
    { digest := "D3", effectsStatus := some "success", statusErr := none,
      objectChanges := none }
    rfl rfl rfl

/-- C6: for every HTTP endpoint with required body fields, a request body
missing any required field is answered with a 400-class response and no
remote call is attempted: the response is fixed before — and independent of
— every remote outcome argument, and `badRequest` is produced by a `return`
that precedes the SDK invocation.  Covers mint-nft (seven required fields
plus the recipient-address format check), mint-restricted-nft,
approve-vetting and status-of-vetting (`applicantAddress`), create-supply
(`supplyLimit` present, a number and positive; `tokenTypeName` truthy),
create-wallet (`userDetails` with truthy `id`) and the two display
endpoints (`displayKeys`, `displayValues`, equal lengths, `braavVersion`).
The remaining endpoints of the interface table require no body fields. -/
theorem endpoints_validation_short_circuit :
    (∀ (isValidAddr : String → Bool) (b : MintBody)
       (mn net : Option String) (o : TxOutcome),
       (∃ f ∈ mintRequiredFields, falsyS (mintBodyGet b f) = true) →
       mintNftRoute isValidAddr b mn net o =
         .badRequest "Missing required fields") ∧
    (∀ (isValidAddr : String → Bool) (b : MintBody)
       (mn net : Option String) (o : TxOutcome),
       (∀ f ∈ mintRequiredFields, falsyS (mintBodyGet b f) = false) →
       isValidAddr (b.recipientAddress.getD "") = false →
       mintNftRoute isValidAddr b mn net o =
         .badRequest "Invalid recipient address format") ∧
    (∀ (isValidAddr : String → Bool) (b : RestrictedMintBody)
       (mn net : Option String) (o : TxOutcome),
       (∃ f ∈ restrictedRequiredFields,
          falsyS (restrictedBodyGet b f) = true) →
       mintRestrictedNftRoute isValidAddr b mn net o =
         .badRequest "Missing required fields") ∧
    (∀ (addr : Option String) (env : ApproveEnv) (o : TxOutcome),
       falsyS addr = true →
       approveVettingRoute addr env o =
         .badRequest "applicantAddress is required in request body") ∧
    (∀ (addr : Option String) (o : QueryOutcome), falsyS addr = true →
       statusOfVettingRoute addr o =
         .badRequest "applicantAddress is required in request body") ∧
    (∀ (ttn : Option String) (o : Except String String),
       createSupplyRoute none ttn o = .badRequest
         "supplyLimit (number) and tokenTypeName (string) are required in request body") ∧
    (∀ (sl : JsVal) (ttn : Option String) (o : Except String String),
       falsyS ttn = true →
       createSupplyRoute (some sl) ttn o = .badRequest
         "supplyLimit (number) and tokenTypeName (string) are required in request body") ∧
    (∀ (ttn : Option String) (n : Int) (o : Except String String),
       falsyS ttn = false → n ≤ 0 →
       createSupplyRoute (some (.num n)) ttn o =
         .badRequest "supplyLimit must be a positive number") ∧
    (∀ (ttn : Option String) (o : Except String String),
       falsyS ttn = false →
       createSupplyRoute (some .other) ttn o =
         .badRequest "supplyLimit must be a positive number") ∧
    (∀ (usm : Bool) (api : Ed25519Api) (ws nowIso randHex : String),
       createWalletRoute none usm api ws nowIso randHex =
         .badRequest "userDetails with id is required in request body") ∧
    (∀ (ud : WalletUserBody) (usm : Bool) (api : Ed25519Api)
       (ws nowIso randHex : String), falsyS ud.id = true →
       createWalletRoute (some ud) usm api ws nowIso randHex =
         .badRequest "userDetails with id is required in request body") ∧
    (∀ (dv : Option (List String)) (bv : Option String),
       createDisplayCheck none dv bv =
         .badRequest "displayKeys is required and must be an array") ∧
    (∀ (ks : List String) (bv : Option String),
       createDisplayCheck (some ks) none bv =
         .badRequest "displayValues is required and must be an array") ∧
    (∀ (ks vs : List String) (bv : Option String),
       ks.length ≠ vs.length →
       createDisplayCheck (some ks) (some vs) bv =
         .badRequest "displayKeys and displayValues must have the same length") ∧
    (∀ (ks vs : List String) (bv : Option String),
       ks.length = vs.length → falsyS bv = true →
       createDisplayCheck (some ks) (some vs) bv =
         .badRequest "braavVersion is required and must be a string") := by
  refine ⟨?_, ?_, ?_, ?_, ?_, ?_, ?_, ?_, ?_, ?_, ?_, ?_, ?_, ?_, ?_⟩
  · rintro isValidAddr b mn net o ⟨f, hf, hp⟩
    have hmem : f ∈ mintRequiredFields.filter
        (fun g => falsyS (mintBodyGet b g)) := List.mem_filter.mpr ⟨hf, hp⟩
    have hlen : 0 < (mintRequiredFields.filter
        (fun g => falsyS (mintBodyGet b g))).length :=
      List.length_pos.mpr (List.ne_nil_of_mem hmem)
    simp only [mintNftRoute, validateMintRequest, hlen, if_pos]
  · intro isValidAddr b mn net o hall hv
    have hnil : mintRequiredFields.filter
        (fun g => falsyS (mintBodyGet b g)) = [] :=
      List.filter_eq_nil_iff.mpr (fun f hf => by simp [hall f hf])
    simp only [mintNftRoute, validateMintRequest, hnil, hv,
      List.length_nil, Nat.lt_irrefl, if_false, Bool.not_false, if_pos]
  · rintro isValidAddr b mn net o ⟨f, hf, hp⟩
    have hmem : f ∈ restrictedRequiredFields.filter
        (fun g => falsyS (restrictedBodyGet b g)) :=
      List.mem_filter.mpr ⟨hf, hp⟩
    have hlen : 0 < (restrictedRequiredFields.filter
        (fun g => falsyS (restrictedBodyGet b g))).length :=
      List.length_pos.mpr (List.ne_nil_of_mem hmem)
    simp only [mintRestrictedNftRoute, validateRestrictedMintRequest, hlen,
      if_pos]
  · intro addr env o h
    simp only [approveVettingRoute, h, if_pos]
  · intro addr o h
    simp only [statusOfVettingRoute, h, if_pos]
  · intro ttn o
    rfl
  · intro sl ttn o h
    simp only [createSupplyRoute, h, if_pos]
  · intro ttn n o h hn
    simp only [createSupplyRoute, h, Bool.false_eq_true, if_false, hn,
      if_pos]
  · intro ttn o h
    simp only [createSupplyRoute, h, Bool.false_eq_true, if_false]
  · intro usm api ws nowIso randHex
    rfl
  · intro ud usm api ws nowIso randHex h
    simp only [createWalletRoute, h, if_pos]
  · intro dv bv
    rfl
  · intro ks bv
    rfl
  · intro ks vs bv h
    have hb : (ks.length != vs.length) = true := by
      simpa using h
    simp only [createDisplayCheck, hb, if_pos]
  · intro ks vs bv h hbv
    have hb : (ks.length != vs.length) = false := by
      simpa using h
    simp only [createDisplayCheck, hb, Bool.false_eq_true, if_false, hbv,
      if_pos]

/-- Witness for C6: each endpoint rejects a concrete deficient body with a
400-class response, for arbitrary remote outcomes fixed to a concrete
thrown one. -/
theorem endpoints_validation_short_circuit_witness :
    mintNftRoute (fun _ => true)
        { packageId := none, supplyCapId := some "0xsc",
          lineageId := some "0xli", counterId := some "0xco",
          recipientAddress := some "0xra", nftName := some "n",
          badgeCoinId := some "b" }
        (some "m") (some "net") (.thrown "offline") =
      .badRequest "Missing required fields" ∧
    approveVettingRoute none
        { packageId := "0xpkg", vettingTableId := "0xt",
          adminCapId := "0xa", mnemonic := some "w" }
        (.thrown "offline") =
      .badRequest "applicantAddress is required in request body" ∧
    statusOfVettingRoute (some "") (.thrown "offline") =
      .badRequest "applicantAddress is required in request body" ∧
    createSupplyRoute (some (.num 0)) (some "xoa::XOA") (.ok "done") =
      .badRequest "supplyLimit must be a positive number" ∧
    createWalletRoute (some ⟨some "", none, none⟩) false
        ⟨fun _ => "", fun _ => ""⟩ "s" "t" "r" =
      .badRequest "userDetails with id is required in request body" ∧
    createDisplayCheck (some ["name"]) (some []) (some "BRAAV16") =
      .badRequest "displayKeys and displayValues must have the same length" :=
  ⟨endpoints_validation_short_circuit.1 (fun _ => true) _ _ _ _
      ⟨"packageId", by decide, rfl⟩,
   endpoints_validation_short_circuit.2.2.2.1 none _ _ rfl,
   endpoints_validation_short_circuit.2.2.2.2.1 (some "") _ rfl,
   endpoints_validation_short_circuit.2.2.2.2.2.2.2.1 (some "xoa::XOA") 0
      (.ok "done") rfl (by decide),
   endpoints_validation_short_circuit.2.2.2.2.2.2.2.2.2.2.1
      ⟨some "", none, none⟩
      false ⟨fun _ => "", fun _ => ""⟩ "s" "t" "r" rfl,
   endpoints_validation_short_circuit.2.2.2.2.2.2.2.2.2.2.2.2.2.1
      ["name"] [] (some "BRAAV16") (by decide)⟩

/-- C9: for every input, `createCustodialWalletWithStandardMnemonic`
throws — it reads the identifier `privateKeyBytes`, which is never bound in
that function — so every create-wallet request with a truthy
`useStandardMnemonic` flag (and a body passing validation) receives a
500-class error response and can never receive the documented success
shape. -/
theorem standard_mnemonic_always_throws (u : UserDetails)
    (ud : WalletUserBody) (api : Ed25519Api) (ws nowIso randHex : String)
    (hid : falsyS ud.id = false) :
    createCustodialWalletWithStandardMnemonic u =
      .error "privateKeyBytes is not defined" ∧
    createWalletRoute (some ud) true api ws nowIso randHex =
      .serverError "privateKeyBytes is not defined" := by
  have hbase : ∀ v : UserDetails,
      createCustodialWalletWithStandardMnemonic v =
        .error "privateKeyBytes is not defined" := by
    intro v
    rfl
  refine ⟨hbase u, ?_⟩
  simp only [createWalletRoute, hid, Bool.false_eq_true, if_false, hbase,
    if_pos]

/-- Witness for C9 at a concrete request body. -/
theorem standard_mnemonic_always_throws_witness :
    createCustodialWalletWithStandardMnemonic
        ⟨"user123", "2024-01-15T10:30:00Z", "abc"⟩ =
      .error "privateKeyBytes is not defined" ∧
    createWalletRoute (some ⟨some "user123", none, none⟩)
        true ⟨fun _ => "", fun _ => ""⟩ "test" "2024-01-15T10:30:00Z"
        "deadbeef" =
      .serverError "privateKeyBytes is not defined" :=
  standard_mnemonic_always_throws ⟨"user123", "2024-01-15T10:30:00Z", "abc"⟩
    ⟨some "user123", none, none⟩
    ⟨fun _ => "", fun _ => ""⟩ "test" "2024-01-15T10:30:00Z" "deadbeef" rfl

end VettingApi
